import Mathlib

/-!
Verification of the Kale Rok RPC module (backend/kale/rpc/rok.py).

The module is a set of RPC handlers bridging a notebook environment to the
Rok snapshot service and the Kubernetes API.  External collaborators (the
Rok client, the Kubernetes client, pod metadata lookup) are modelled as
oracle parameters: each handler takes the outcomes of its external calls as
explicit inputs and we verify the branching, data reshaping and error
selection logic that the module itself implements.

Python dictionaries are modelled as association lists of strings; Python
exceptions are modelled with an explicit error type and `Except`.
-/

deriving instance DecidableEq for Except

/-- A single entry of the `annotations` list attached to a resolved volume,
as built by `_get_cloned_volume` (a dict with keys `key` and `value`). -/
structure Annotation where
  key : String
  value : String
deriving DecidableEq

/-- A volume request dict.  The source accesses the mandatory keys `name`
and `type`, and writes the keys `type` and `annotations`; any other entries
of the dict are carried opaquely in `extra`.  `annotations := none` models a
dict with no `annotations` key. -/
structure VolumeDescriptor where
  name : String
  type : String
  annotations : Option (List Annotation)
  extra : List (String × String)
deriving DecidableEq

/-- A group-member dict as built by `_get_group_members`. -/
structure Member where
  object : String
  version : String
  rok_url : String
deriving DecidableEq

/-- The exceptions the module can raise.  `valueError` and `keyError` are
the Python builtins; `rpcNotFound` and `rpcServiceUnavailable` model the
classes `RPCNotFoundError` and `RPCServiceUnavailableError` imported from
`kale.rpc.errors`, carrying the keyword arguments passed at the raise sites
(`message`, `details`, `trans_id`). -/
inductive PyError where
  | valueError (msg : String)
  | keyError (key : String)
  | rpcNotFound (details : String) (trans_id : String)
  | rpcServiceUnavailable (message : Option String) (details : String) (trans_id : String)
deriving DecidableEq

/-- True exactly for the two RPC-specific error classes of the module. -/
def is_rpc_error : PyError → Bool
  | .rpcNotFound _ _ => true
  | .rpcServiceUnavailable _ _ _ => true
  | .valueError _ => false
  | .keyError _ => false

/-- True exactly for the RPC Not-Found error class. -/
def is_not_found : PyError → Bool
  | .rpcNotFound _ _ => true
  | _ => false

/-- Python dict lookup `d.get(k)` on an association list. -/
def dict_get (info : List (String × String)) (k : String) : Option String :=
  (info.find? (fun p => p.1 == k)).map (fun p => p.2)

/-- Python dict indexing `d[k]`: raises `KeyError(k)` when the key is
absent. -/
def getKey (info : List (String × String)) (k : String) : Except PyError String :=
  match dict_get info k with
  | some v => .ok v
  | none => .error (.keyError k)

/-- Whitespace characters stripped by Python `int()`. -/
def isPySpace (c : Char) : Bool :=
  c == ' ' || c == '\t' || c == '\n' || c == '\r' || c == '\x0b' || c == '\x0c'

/-- Value of an ASCII decimal digit. -/
def digitVal (c : Char) : Option Nat :=
  if c.isDigit then some (c.toNat - Char.toNat '0') else none

/-- Accumulate the remaining digits of a decimal numeral. -/
def digitsValAux : Nat → List Char → Option Nat
  | acc, [] => some acc
  | acc, c :: rest =>
    match digitVal c with
    | some d => digitsValAux (acc * 10 + d) rest
    | none => none

/-- Value of a non-empty all-digit character list, `none` otherwise. -/
def digitsVal : List Char → Option Nat
  | [] => none
  | c :: rest =>
    match digitVal c with
    | some d => digitsValAux d rest
    | none => none

/-- Strip leading and trailing whitespace. -/
def trimChars (cs : List Char) : List Char :=
  ((cs.dropWhile isPySpace).reverse.dropWhile isPySpace).reverse

/-- Models the Python builtin `int()` applied to a string: optional
surrounding whitespace, an optional sign, then a non-empty run of decimal
digits; `none` models the `ValueError` raised on any other input.
(Underscore digit separators and non-decimal bases are not modelled; no
input relevant to this module uses them.) -/
def pyInt (s : String) : Option Int :=
  match trimChars s.data with
  | '-' :: rest => (digitsVal rest).map (fun n => -(n : Int))
  | '+' :: rest => (digitsVal rest).map (fun n => (n : Int))
  | cs => (digitsVal cs).map (fun n => (n : Int))

/-- The key `"group_member_%d_<field>" % i`. -/
def member_key (i : Nat) (field : String) : String :=
  "group_member_" ++ Nat.repr i ++ "_" ++ field

/-- One iteration of the loop body of `_get_group_members`: read the three
indexed fields of member `i` and build its descriptor dict. -/
def member_at (info : List (String × String)) (i : Nat) : Except PyError Member :=
  match getKey info (member_key i "object") with
  | .error e => .error e
  | .ok o =>
    match getKey info (member_key i "version") with
    | .error e => .error e
    | .ok v =>
      match getKey info (member_key i "url") with
      | .error e => .error e
      | .ok u => .ok { object := o, version := v, rok_url := u }

/-- The loop `for i in range(member_cnt)` of `_get_group_members`, started
at index `i` with `k` iterations left, appending in ascending order. -/
def build_members_aux (info : List (String × String)) : Nat → Nat → Except PyError (List Member)
  | _, 0 => .ok []
  | i, k + 1 =>
    match member_at info i with
    | .error e => .error e
    | .ok m =>
      match build_members_aux info (i + 1) k with
      | .error e => .error e
      | .ok rest => .ok (m :: rest)

/-- Embedding of `_get_group_members(info)`: read `group_member_count`,
parse it with `int()`, then collect one member descriptor per index in
`range(member_cnt)` (empty for a non-positive count). -/
def _get_group_members (info : List (String × String)) : Except PyError (List Member) :=
  match getKey info "group_member_count" with
  | .error e => .error e
  | .ok s =>
    match pyInt s with
    | none => .error (.valueError ("invalid literal for int() with base 10: " ++ s))
    | some n => build_members_aux info 0 n.toNat

/-- Embedding of `_get_cloned_volume(volume, obj_name, members)`: compute
`member_name`, scan `members` for the first whose `object` equals it; on a
match return a copy of the volume with `type` set to `new_pvc` and
`annotations` replaced; otherwise raise
`ValueError("Volume <name> not found in group <obj_name>")`. -/
def _get_cloned_volume (volume : VolumeDescriptor) (obj_name : String)
    (members : List Member) : Except PyError VolumeDescriptor :=
  let member_name := obj_name ++ "_" ++ volume.name
  match members.find? (fun m => m.object == member_name) with
  | some member =>
    .ok { volume with
          type := "new_pvc",
          annotations := some [{ key := "rok/origin", value := member.rok_url }] }
  | none =>
    .error (.valueError
      ("Volume \x27" ++ volume.name ++ "\x27 not found in group \x27" ++ obj_name ++ "\x27"))

/-- State-passing view of `_get_cloned_volume`: the first component is the
final value of the dict the caller passed in.  The source rebinds its local
name to `copy.deepcopy(volume)` before any item assignment, so the only
mutations it performs act on the fresh copy and the caller's dict keeps its
original value. -/
def _get_cloned_volume_st (volume : VolumeDescriptor) (obj_name : String)
    (members : List Member) : VolumeDescriptor × Except PyError VolumeDescriptor :=
  (volume, _get_cloned_volume volume obj_name members)

/-- The loop of `replace_cloned_volumes` over the requested volumes:
clone-type volumes are resolved (propagating the resolution error), all
others are appended unchanged. -/
def replace_volumes_loop (obj : String) (members : List Member) :
    List VolumeDescriptor → Except PyError (List VolumeDescriptor)
  | [] => .ok []
  | v :: rest =>
    match (if v.type == "clone" then _get_cloned_volume v obj members else .ok v) with
    | .error e => .error e
    | .ok v2 =>
      match replace_volumes_loop obj members rest with
      | .error e => .error e
      | .ok rest2 => .ok (v2 :: rest2)

/-- Embedding of `replace_cloned_volumes(request, bucket, obj, version,
volumes)`.  The Rok call `rok.version_info(bucket, obj, version)` is an
external collaborator; its result mapping is taken as the parameter
`info`. -/
def replace_cloned_volumes (info : List (String × String)) (obj : String)
    (volumes : List VolumeDescriptor) : Except PyError (List VolumeDescriptor) :=
  match _get_group_members info with
  | .error e => .error e
  | .ok members => replace_volumes_loop obj members volumes

/-- Binary length of a natural number, with explicit fuel (the first
argument); `fuel = x` always suffices. -/
def bitsAux : Nat → Nat → Nat
  | 0, _ => 0
  | fuel + 1, x => if x = 0 then 0 else bitsAux fuel (x / 2) + 1

/-- Number of binary digits of `x` (0 for 0). -/
def bits (x : Nat) : Nat := bitsAux x x

/-- Round a natural number to 53 significant binary digits with
round-to-nearest, ties to even: the rounding IEEE-754 double precision
performs when a Python int is converted by true division.  Integers below
2^53 are exact. -/
def rnd53 (x : Nat) : Nat :=
  if x < 2 ^ 53 then x
  else
    let ulp := 2 ^ (bits x - 53)
    let q := x / ulp
    let r := x % ulp
    if 2 * r < ulp then q * ulp
    else if ulp < 2 * r then (q + 1) * ulp
    else if q % 2 = 0 then q * ulp else (q + 1) * ulp

/-- Embedding of `math.ceil(n / 1024 / 1024 / 1024)` for a non-negative
Python int `n`.  CPython true division of ints is correctly rounded to
double precision, and the subsequent float divisions by 1024 are exact
(exponent shifts), so the computed double is exactly `rnd53 n / 2^30` and
its ceiling is the natural-number ceiling division below. -/
def pySize (n : Nat) : Nat := (rnd53 n + (2 ^ 30 - 1)) / 2 ^ 30

/-- The same size computation on a possibly negative int: for negative `n`
the double is `-(rnd53 (-n) / 2^30)` and `math.ceil` floors the
magnitude. -/
def pySizeInt (n : Int) : Int :=
  if 0 ≤ n then (pySize n.toNat : Int) else -((rnd53 (-n).toNat / 2 ^ 30 : Nat) : Int)

/-- The persistent-volume-claim body built by `hydrate_pvc_from_snapshot`
(the fields of the `V1PersistentVolumeClaim` the source constructs). -/
structure PVCSpec where
  name : String
  annotations : List (String × String)
  storage_class_name : String
  access_modes : List String
  storage_request : String
deriving DecidableEq

/-- External-call outcomes consumed by `hydrate_pvc_from_snapshot`: the
version metadata returned by `rok.version_info` and the Kubernetes API
call `create_namespaced_persistent_volume_claim`, modelled as a function
from the submitted claim body to the `metadata.name` of the response. -/
structure HydrateEnv where
  info : List (String × String)
  create_pvc : PVCSpec → String

/-- Embedding of `hydrate_pvc_from_snapshot(request, obj, version,
new_pvc_name, bucket)` after the external `version_info` fetch: parse
`content_length`, compute the size in Gi, read `rok_url`, build the claim
body, create it and return a result dict with the created name. -/
def hydrate_pvc_from_snapshot (env : HydrateEnv) (new_pvc_name : String) :
    Except PyError (List (String × String)) :=
  match getKey env.info "content_length" with
  | .error e => .error e
  | .ok cl =>
    match pyInt cl with
    | none => .error (.valueError ("invalid literal for int() with base 10: " ++ cl))
    | some n =>
      let size := pySizeInt n
      match getKey env.info "rok_url" with
      | .error e => .error e
      | .ok rok_url =>
        .ok [("name", env.create_pvc
          { name := new_pvc_name,
            annotations := [("rok/creds-secret-name", "rok-secret-user"),
                            ("rok/origin", rok_url)],
            storage_class_name := "rok",
            access_modes := ["ReadWriteOnce"],
            storage_request := toString size ++ "Gi" })]

/-- Outcome of `_get_client()` inside the first try block of
`check_rok_availability`: success, an `ImportError`, or any other
exception. -/
inductive ClientOutcome where
  | ok
  | importError
  | initError
deriving DecidableEq

/-- One entry of the list returned by `rok.version_register_suggest`; the
source reads its `value` key. -/
structure Suggestion where
  value : String
deriving DecidableEq

/-- External-call outcomes consumed by `check_rok_availability`: the
client construction, the `account_info` call, the suggestion listing
(`Except` error carries the formatted exception message) and the current
pod name. -/
structure AvailEnv where
  client : ClientOutcome
  account_info_ok : Bool
  suggestions : Except String (List Suggestion)
  pod_name : String

/-- Embedding of `check_rok_availability(request)`.  The function body has
no return statement, so on success it returns Python `None`, modelled as
`Option.none`. -/
def check_rok_availability (env : AvailEnv) (trans_id : String) :
    Except PyError (Option Unit) :=
  match env.client with
  | .importError => .error (.rpcNotFound "Rok Gateway Client module not found" trans_id)
  | .initError => .error (.rpcServiceUnavailable none "Failed to initialize RokClient" trans_id)
  | .ok =>
    if env.account_info_ok then
      match env.suggestions with
      | .error m =>
        .error (.rpcServiceUnavailable (some m)
          "Rok cannot list notebooks in this namespace" trans_id)
      | .ok l =>
        if l.any (fun s => s.value == env.pod_name) then .ok none
        else .error (.rpcNotFound
          "Could not find this notebook in notebooks listed by Rok" trans_id)
    else .error (.rpcServiceUnavailable none "Failed to access Rok" trans_id)

/-- Parameters of a `rok.version_register` call. -/
structure RegisterCall where
  bucket : String
  obj : String
  type_tag : String
  params : List (String × String)
deriving DecidableEq

/-- External-call outcomes consumed by the two snapshot handlers: the
hostname, the namespace, the pod name, and the `version_register` call
modelled as a function from its parameters to the opaque service
response.  The idempotent `create_rok_bucket` side call has no effect on
the result and is not modelled. -/
structure SnapEnv (α : Type) where
  hostname : String
  ns : String
  pod_name : String
  register : RegisterCall → α

/-- The module constant `NOTEBOOK_SNAPSHOT_COMMIT_MESSAGE`, with its two
format placeholders filled in. -/
def notebook_commit_message (hostname ns : String) : String :=
  "This is a snapshot of notebook " ++ hostname ++ " in namespace " ++ ns ++
  ".\n\nThis snapshot was created by Kale in order to clone the volumes of the notebook\nand use them to spawn a Kubeflow pipeline."

/-- Python `obj or default`: `None` and the empty string are falsy. -/
def py_or_default (obj : Option String) (dflt : String) : String :=
  match obj with
  | none => dflt
  | some s => if s = "" then dflt else s

/-- Embedding of `snapshot_notebook(request, bucket, obj)`. -/
def snapshot_notebook {α : Type} (env : SnapEnv α) (bucket : String)
    (obj : Option String) : α :=
  let commit_title := "Snapshot of notebook " ++ env.hostname
  let commit_message := notebook_commit_message env.hostname env.ns
  let o := py_or_default obj env.pod_name
  env.register
    { bucket := bucket, obj := o, type_tag := "jupyter",
      params := [("namespace", env.ns),
                 ("commit_title", commit_title),
                 ("commit_message", commit_message)] }

/-- Embedding of `snapshot_pvc(request, pvc_name, bucket)`. -/
def snapshot_pvc {α : Type} (env : SnapEnv α) (pvc_name bucket : String) : α :=
  env.register
    { bucket := bucket, obj := pvc_name, type_tag := "dataset",
      params := [("dataset", pvc_name),
                 ("namespace", env.ns),
                 ("commit_title", "Snapshot of PVC " ++ pvc_name),
                 ("commit_message",
                  "Snapshot of PVC " ++ pvc_name ++ " for an InferenceServer")] }

/-- Embedding of `_get_client()` with the module global `_client` passed as
explicit state and the `RokClient()` constructor as an oracle: returns the
cached handle when one is set, otherwise stores and returns a freshly
constructed one, propagating construction failure.  `_get_client` is the
only code in the module that assigns the global. -/
def _get_client_st {α : Type} (cache : Option α) (construct : Except PyError α) :
    Except PyError (α × Option α) :=
  match cache with
  | some c => .ok (c, some c)
  | none =>
    match construct with
    | .ok c => .ok (c, some c)
    | .error e => .error e

/-- A sequence of `_get_client` calls threaded through the module state,
one constructor outcome per call: returns the per-call results and the
final cache.  Every operation of the module interacts with the global
`_client` only through `_get_client`, so any run of module operations is a
run of this function. -/
def run_client_calls {α : Type} (cache : Option α) :
    List (Except PyError α) → List (Except PyError α) × Option α
  | [] => ([], cache)
  | con :: rest =>
    match _get_client_st cache con with
    | .ok (r, cache2) =>
      let p := run_client_calls cache2 rest
      (.ok r :: p.1, p.2)
    | .error e =>
      let p := run_client_calls cache rest
      (.error e :: p.1, p.2)

/-- True exactly when a value returned by the availability check is a
non-null result value (Python non-None). -/
def isNonNullResult : Except PyError (Option Unit) → Bool
  | .ok (some _) => true
  | _ => false

/-- The spec-scenario clone request: volume vol1 of type clone. -/
def volClone : VolumeDescriptor :=
  { name := "vol1", type := "clone", annotations := none, extra := [] }

/-- A non-clone volume request used alongside the scenario. -/
def volPlain : VolumeDescriptor :=
  { name := "vol2", type := "existing", annotations := none, extra := [] }

/-- The spec-scenario resolution result for vol1. -/
def volRes : VolumeDescriptor :=
  { name := "vol1", type := "new_pvc",
    annotations := some [{ key := "rok/origin", value := "rok://x/y" }], extra := [] }

/-- The spec-scenario version metadata: one group member mynb_vol1. -/
def infoOne : List (String × String) :=
  [("group_member_count", "1"), ("group_member_0_object", "mynb_vol1"),
   ("group_member_0_version", "v3"), ("group_member_0_url", "rok://x/y")]

/-- The spec-scenario member descriptor. -/
def memberOne : Member :=
  { object := "mynb_vol1", version := "v3", rok_url := "rok://x/y" }

/-- A concrete hydration environment whose cluster API echoes the requested
claim name. -/
def hydEnvW : HydrateEnv :=
  { info := [("content_length", "1"), ("rok_url", "rok://a/b")],
    create_pvc := fun p => PVCSpec.name p }

/-- A concrete availability environment in which all three sub-checks
pass. -/
def availEnvW : AvailEnv :=
  { client := .ok, account_info_ok := true,
    suggestions := .ok [{ value := "p" }], pod_name := "p" }

/-- A concrete snapshot environment whose registration call echoes its
parameters. -/
def snapEnvW : SnapEnv RegisterCall :=
  { hostname := "h", ns := "n", pod_name := "pod", register := fun call => call }

/-! ## Helper lemmas -/

lemma find?_of_first {α : Type} (p : α → Bool) :
    ∀ (l : List α) (i : Nat) (a : α),
      l[i]? = some a → p a = true →
      (∀ j b, j < i → l[j]? = some b → p b = false) →
      l.find? p = some a := by
  intro l
  induction l with
  | nil => intro i a h _ _; simp at h
  | cons x xs ih =>
    intro i a hget hpa hfirst
    cases i with
    | zero =>
      simp at hget
      subst hget
      exact List.find?_cons_of_pos _ hpa
    | succ i =>
      have hx : p x = false := hfirst 0 x (Nat.succ_pos i) (by simp)
      simp at hget
      rw [List.find?_cons_of_neg _ (by simp [hx])]
      exact ih i a hget hpa (fun j b hj hb => hfirst (j + 1) b (Nat.succ_lt_succ hj) (by simpa using hb))

lemma getKey_of_dict_get {info : List (String × String)} {k v : String}
    (h : dict_get info k = some v) : getKey info k = .ok v := by
  simp [getKey, h]

/-! ## C1, C3, C7: clone-volume resolution -/

/-- C1: for every clone-type volume and member list, if some member's
object name equals `group_object_name + "_" + volume.name`, then
`_get_cloned_volume` returns a descriptor equal to the input except that
its type is `new_pvc` and its annotations are exactly the one-element
origin annotation built from the rok_url of the first matching member in
ascending index order. -/
theorem c1_resolve_clone_match (v : VolumeDescriptor) (obj : String)
    (members : List Member) (i : Nat) (m : Member)
    (hv : v.type = "clone")
    (hget : members[i]? = some m)
    (hmatch : m.object = obj ++ "_" ++ v.name)
    (hfirst : ∀ j b, j < i → members[j]? = some b → b.object ≠ obj ++ "_" ++ v.name) :
    _get_cloned_volume v obj members =
      .ok { name := v.name, type := "new_pvc",
            annotations := some [{ key := "rok/origin", value := m.rok_url }],
            extra := v.extra } := by
  have hfind : members.find? (fun mem => mem.object == obj ++ "_" ++ v.name) = some m := by
    refine find?_of_first _ members i m hget (beq_iff_eq.mpr hmatch) ?_
    intro j b hj hb
    exact beq_eq_false_iff_ne.mpr (hfirst j b hj hb)
  simp only [_get_cloned_volume, hfind]

/-- Witness for C1 at the scenario of the spec: group object mynb, volume
vol1 of type clone, a single member mynb_vol1 with url rok://x/y. -/
theorem c1_witness :
    _get_cloned_volume { name := "vol1", type := "clone", annotations := none, extra := [] }
        "mynb" [{ object := "mynb_vol1", version := "v3", rok_url := "rok://x/y" }] =
      .ok { name := "vol1", type := "new_pvc",
            annotations := some [{ key := "rok/origin", value := "rok://x/y" }],
            extra := [] } :=
  c1_resolve_clone_match
    { name := "vol1", type := "clone", annotations := none, extra := [] } "mynb"
    [{ object := "mynb_vol1", version := "v3", rok_url := "rok://x/y" }] 0
    { object := "mynb_vol1", version := "v3", rok_url := "rok://x/y" }
    rfl rfl (by decide)
    (fun j b hj _ => absurd hj (Nat.not_lt_zero j))

/-- C3 counterexample: on a clone volume with no matching member the
resolution failure is the generic Python ValueError, not the RPC Not-Found
error class of the module. -/
theorem c3_counterexample :
    _get_cloned_volume { name := "vol1", type := "clone", annotations := none, extra := [] }
        "mynb" [] =
      .error (.valueError "Volume \x27vol1\x27 not found in group \x27mynb\x27")
    ∧ is_not_found (.valueError "Volume \x27vol1\x27 not found in group \x27mynb\x27") = false := by
  constructor
  · decide
  · decide

/-- C3 (amended): for every clone-type volume and member list with no
matching member, `_get_cloned_volume` raises a generic ValueError (not an
RPC-typed condition) whose message names both the volume name and the
group object name. -/
theorem c3_no_match_value_error (v : VolumeDescriptor) (obj : String)
    (members : List Member)
    (hv : v.type = "clone")
    (hnone : ∀ m ∈ members, m.object ≠ obj ++ "_" ++ v.name) :
    _get_cloned_volume v obj members =
      .error (.valueError
        ("Volume \x27" ++ v.name ++ "\x27 not found in group \x27" ++ obj ++ "\x27"))
    ∧ ∀ e, _get_cloned_volume v obj members = .error e → is_rpc_error e = false := by
  have hfind : members.find? (fun mem => mem.object == obj ++ "_" ++ v.name) = none := by
    refine List.find?_eq_none.mpr ?_
    intro m hm
    simp only [beq_iff_eq]
    exact hnone m hm
  have hmain : _get_cloned_volume v obj members =
      .error (.valueError
        ("Volume \x27" ++ v.name ++ "\x27 not found in group \x27" ++ obj ++ "\x27")) := by
    simp only [_get_cloned_volume, hfind]
  refine ⟨hmain, ?_⟩
  intro e he
  rw [hmain] at he
  injection he with he2
  rw [← he2]
  rfl

/-- Witness for C3 at the empty member list. -/
theorem c3_witness :
    _get_cloned_volume { name := "vol1", type := "clone", annotations := none, extra := [] }
        "mynb" [] =
      .error (.valueError "Volume \x27vol1\x27 not found in group \x27mynb\x27") :=
  (c3_no_match_value_error
    { name := "vol1", type := "clone", annotations := none, extra := [] } "mynb" []
    rfl (fun m hm => absurd hm (List.not_mem_nil m))).1

/-- C7: when a clone-type volume resolves against a matching member, the
value the caller passed in is left unchanged (the source mutates only a
deep copy), and the returned descriptor agrees with the input on every
field other than type and annotations. -/
theorem c7_no_mutation_frame (v : VolumeDescriptor) (obj : String)
    (members : List Member) (r : VolumeDescriptor)
    (hv : v.type = "clone")
    (h : _get_cloned_volume v obj members = .ok r) :
    ( _get_cloned_volume_st v obj members).1 = v
    ∧ r.name = v.name ∧ r.extra = v.extra
    ∧ r.type = "new_pvc"
    ∧ ∃ u, r.annotations = some [{ key := "rok/origin", value := u }] := by
  refine ⟨rfl, ?_⟩
  cases hfind : members.find? (fun m => m.object == obj ++ "_" ++ v.name) with
  | none =>
    simp only [_get_cloned_volume, hfind] at h
    exact Except.noConfusion h
  | some m =>
    simp only [_get_cloned_volume, hfind, Except.ok.injEq] at h
    subst h
    exact ⟨rfl, rfl, rfl, m.rok_url, rfl⟩

/-- Witness for C7 at the scenario of the spec, with an additional opaque
dict entry that the resolution must carry over unchanged. -/
theorem c7_witness :
    ( _get_cloned_volume_st
        { name := "vol1", type := "clone", annotations := none, extra := [("size", "5")] }
        "mynb" [{ object := "mynb_vol1", version := "v3", rok_url := "rok://x/y" }]).1 =
      { name := "vol1", type := "clone", annotations := none, extra := [("size", "5")] }
    ∧ (VolumeDescriptor.name
        { name := "vol1", type := "new_pvc",
          annotations := some [{ key := "rok/origin", value := "rok://x/y" }],
          extra := [("size", "5")] } =
       VolumeDescriptor.name
        { name := "vol1", type := "clone", annotations := none, extra := [("size", "5")] })
    ∧ (VolumeDescriptor.extra
        { name := "vol1", type := "new_pvc",
          annotations := some [{ key := "rok/origin", value := "rok://x/y" }],
          extra := [("size", "5")] } =
       VolumeDescriptor.extra
        { name := "vol1", type := "clone", annotations := none, extra := [("size", "5")] })
    ∧ (VolumeDescriptor.type
        { name := "vol1", type := "new_pvc",
          annotations := some [{ key := "rok/origin", value := "rok://x/y" }],
          extra := [("size", "5")] } = "new_pvc")
    ∧ ∃ u, (VolumeDescriptor.annotations
        { name := "vol1", type := "new_pvc",
          annotations := some [{ key := "rok/origin", value := "rok://x/y" }],
          extra := [("size", "5")] } = some [{ key := "rok/origin", value := u }]) :=
  c7_no_mutation_frame
    { name := "vol1", type := "clone", annotations := none, extra := [("size", "5")] }
    "mynb" [{ object := "mynb_vol1", version := "v3", rok_url := "rok://x/y" }]
    { name := "vol1", type := "new_pvc",
      annotations := some [{ key := "rok/origin", value := "rok://x/y" }],
      extra := [("size", "5")] }
    rfl (by decide)

/-! ## C6, C10: group-member extraction -/

lemma getKey_err {info : List (String × String)} {k : String} {e : PyError}
    (h : getKey info k = .error e) : e = .keyError k := by
  unfold getKey at h
  cases hd : dict_get info k with
  | some v => rw [hd] at h; exact Except.noConfusion h
  | none => rw [hd] at h; injection h with h2; exact h2.symm

lemma member_at_ok {info : List (String × String)} {i : Nat} {o v u : String}
    (ho : dict_get info (member_key i "object") = some o)
    (hv : dict_get info (member_key i "version") = some v)
    (hu : dict_get info (member_key i "url") = some u) :
    member_at info i = .ok { object := o, version := v, rok_url := u } := by
  simp only [member_at, getKey_of_dict_get ho, getKey_of_dict_get hv, getKey_of_dict_get hu]

lemma member_at_err {info : List (String × String)} {i : Nat} {e : PyError}
    (h : member_at info i = .error e) : ∃ k, e = .keyError k := by
  unfold member_at at h
  cases h1 : getKey info (member_key i "object") with
  | error e1 => rw [h1] at h; injection h with h2; exact ⟨_, h2 ▸ getKey_err h1⟩
  | ok o =>
    rw [h1] at h
    cases h2 : getKey info (member_key i "version") with
    | error e2 => rw [h2] at h; injection h with h3; exact ⟨_, h3 ▸ getKey_err h2⟩
    | ok v =>
      rw [h2] at h
      cases h3 : getKey info (member_key i "url") with
      | error e3 => rw [h3] at h; injection h with h4; exact ⟨_, h4 ▸ getKey_err h3⟩
      | ok u => rw [h3] at h; exact Except.noConfusion h

lemma build_members_aux_ok (info : List (String × String)) (f : Nat → Member) :
    ∀ (k i : Nat), (∀ j, j < k → member_at info (i + j) = .ok (f (i + j))) →
      build_members_aux info i k = .ok ((List.range k).map (fun j => f (i + j))) := by
  intro k
  induction k with
  | zero => intro i _; simp [build_members_aux]
  | succ k ih =>
    intro i h
    have h0 : member_at info i = .ok (f i) := by simpa using h 0 (Nat.succ_pos k)
    have hrec : build_members_aux info (i + 1) k =
        .ok ((List.range k).map (fun j => f (i + 1 + j))) := by
      refine ih (i + 1) ?_
      intro j hj
      have := h (j + 1) (Nat.succ_lt_succ hj)
      rwa [show i + (j + 1) = i + 1 + j by omega] at this
    simp only [build_members_aux, h0, hrec, Except.ok.injEq]
    rw [List.range_succ_eq_map, List.map_cons, List.map_map]
    refine congrArg₂ _ (by rw [Nat.add_zero]) ?_
    refine List.map_congr_left ?_
    intro j _
    simp only [Function.comp_apply]
    congr 1
    omega

lemma build_members_aux_err (info : List (String × String)) :
    ∀ (k i : Nat) (e : PyError), build_members_aux info i k = .error e →
      ∃ key, e = .keyError key := by
  intro k
  induction k with
  | zero => intro i e h; exact Except.noConfusion h
  | succ k ih =>
    intro i e h
    unfold build_members_aux at h
    cases h1 : member_at info i with
    | error e1 => rw [h1] at h; injection h with h2; exact h2 ▸ member_at_err h1
    | ok m =>
      rw [h1] at h
      cases h2 : build_members_aux info (i + 1) k with
      | error e2 => rw [h2] at h; injection h with h3; exact h3 ▸ ih (i + 1) e2 h2
      | ok rest => rw [h2] at h; exact Except.noConfusion h

/-- C6: for every version metadata whose group_member_count parses as a
non-negative integer n and which contains the object, version and url keys
for every index below n, `_get_group_members` returns exactly n member
descriptors in ascending index order, the i-th built from the three fields
indexed i; and every failure of `_get_group_members` is a generic KeyError
or ValueError, never one of the RPC-typed conditions. -/
theorem c6_extract_members :
    (∀ (info : List (String × String)) (s : String) (n : Nat) (o v u : Nat → String),
      dict_get info "group_member_count" = some s →
      pyInt s = some (n : Int) →
      (∀ i, i < n → dict_get info (member_key i "object") = some (o i)
                  ∧ dict_get info (member_key i "version") = some (v i)
                  ∧ dict_get info (member_key i "url") = some (u i)) →
      ∃ ms, _get_group_members info = .ok ms ∧ ms.length = n
        ∧ ∀ i, i < n → ms[i]? = some { object := o i, version := v i, rok_url := u i })
    ∧ (∀ (info : List (String × String)) (e : PyError),
        _get_group_members info = .error e →
        is_rpc_error e = false ∧ ((∃ k, e = .keyError k) ∨ (∃ m, e = .valueError m))) := by
  constructor
  · intro info s n o v u hs hn hkeys
    have hbuild : build_members_aux info 0 n =
        .ok ((List.range n).map (fun j => ({ object := o j, version := v j, rok_url := u j } : Member))) := by
      have := build_members_aux_ok info
        (fun j => ({ object := o j, version := v j, rok_url := u j } : Member)) n 0 ?_
      · simpa using this
      · intro j hj
        simp only [Nat.zero_add]
        exact member_at_ok (hkeys j hj).1 (hkeys j hj).2.1 (hkeys j hj).2.2
    refine ⟨(List.range n).map (fun j => ({ object := o j, version := v j, rok_url := u j } : Member)),
      ?_, ?_, ?_⟩
    · simp only [_get_group_members, getKey_of_dict_get hs, hn, Int.toNat_ofNat]
      exact hbuild
    · simp
    · intro i hi
      simp [List.getElem?_map, List.getElem?_range hi]
  · intro info e h
    have hgen : (∃ k, e = .keyError k) ∨ (∃ m, e = .valueError m) := by
      cases h1 : getKey info "group_member_count" with
      | error e1 =>
        simp only [_get_group_members, h1] at h
        injection h with h2
        exact .inl ⟨_, h2 ▸ getKey_err h1⟩
      | ok s =>
        cases h2 : pyInt s with
        | none =>
          simp only [_get_group_members, h1, h2] at h
          injection h with h3
          exact .inr ⟨_, h3.symm⟩
        | some n =>
          simp only [_get_group_members, h1, h2] at h
          exact .inl (build_members_aux_err info n.toNat 0 e h)
    refine ⟨?_, hgen⟩
    rcases hgen with ⟨k, rfl⟩ | ⟨m, rfl⟩ <;> rfl

/-- Witness for C6 on a one-member metadata mapping. -/
theorem c6_witness :
    ∃ ms, _get_group_members
        [("group_member_count", "1"), ("group_member_0_object", "mynb_vol1"),
         ("group_member_0_version", "v3"), ("group_member_0_url", "rok://x/y")] = .ok ms
      ∧ ms.length = 1
      ∧ ∀ i, i < 1 → ms[i]? =
          some { object := "mynb_vol1", version := "v3", rok_url := "rok://x/y" } :=
  c6_extract_members.1
    [("group_member_count", "1"), ("group_member_0_object", "mynb_vol1"),
     ("group_member_0_version", "v3"), ("group_member_0_url", "rok://x/y")]
    "1" 1 (fun _ => "mynb_vol1") (fun _ => "v3") (fun _ => "rok://x/y")
    (by decide) (by decide)
    (fun i hi => by
      have : i = 0 := by omega
      subst this
      exact ⟨by decide, by decide, by decide⟩)

/-- C10: when group_member_count parses as a negative integer, the member
extraction raises nothing and returns the empty list, every clone-type
volume then fails resolution against the empty member list, and
`replace_cloned_volumes` on such metadata fails for any request containing
a clone-type volume. -/
theorem c10_negative_count (info : List (String × String)) (s : String) (n : Int)
    (hs : dict_get info "group_member_count" = some s)
    (hn : pyInt s = some n) (hneg : n < 0) :
    _get_group_members info = .ok []
    ∧ (∀ (v : VolumeDescriptor) (obj : String), v.type = "clone" →
        ∃ msg, _get_cloned_volume v obj [] = .error (.valueError msg))
    ∧ (∀ (obj : String) (volumes : List VolumeDescriptor),
        (∃ v ∈ volumes, v.type = "clone") →
        ∃ msg, replace_cloned_volumes info obj volumes = .error (.valueError msg)) := by
  have hmembers : _get_group_members info = .ok [] := by
    have htn : n.toNat = 0 := Int.toNat_of_nonpos (le_of_lt hneg)
    simp only [_get_group_members, getKey_of_dict_get hs, hn, htn]
    rfl
  have hclone : ∀ (v : VolumeDescriptor) (obj : String),
      ∃ msg, _get_cloned_volume v obj [] = .error (.valueError msg) := by
    intro v obj
    exact ⟨_, rfl⟩
  refine ⟨hmembers, fun v obj _ => hclone v obj, ?_⟩
  intro obj volumes hex
  have hloop : ∀ (vs : List VolumeDescriptor), (∃ v ∈ vs, v.type = "clone") →
      ∃ msg, replace_volumes_loop obj [] vs = .error (.valueError msg) := by
    intro vs
    induction vs with
    | nil => intro h; rcases h with ⟨v, hv, _⟩; exact absurd hv (List.not_mem_nil v)
    | cons x rest ih =>
      intro h
      by_cases hx : x.type = "clone"
      · have hbeq : (x.type == "clone") = true := beq_iff_eq.mpr hx
        rcases hclone x obj with ⟨msg, hmsg⟩
        refine ⟨msg, ?_⟩
        simp [replace_volumes_loop, hbeq, hmsg]
      · rcases h with ⟨v, hv, hvc⟩
        rcases List.mem_cons.mp hv with rfl | hvrest
        · exact absurd hvc hx
        · rcases ih ⟨v, hvrest, hvc⟩ with ⟨msg, hmsg⟩
          refine ⟨msg, ?_⟩
          have hbeq : (x.type == "clone") = false := beq_eq_false_iff_ne.mpr hx
          simp [replace_volumes_loop, hbeq, hmsg]
  rcases hloop volumes hex with ⟨msg, hmsg⟩
  refine ⟨msg, ?_⟩
  simp only [replace_cloned_volumes, hmembers, hmsg]

/-- Witness for C10 at count -1 with a single clone-type volume. -/
theorem c10_witness :
    _get_group_members [("group_member_count", "-1")] = .ok []
    ∧ (∀ (v : VolumeDescriptor) (obj : String), v.type = "clone" →
        ∃ msg, _get_cloned_volume v obj [] = .error (.valueError msg))
    ∧ (∀ (obj : String) (volumes : List VolumeDescriptor),
        (∃ v ∈ volumes, v.type = "clone") →
        ∃ msg, replace_cloned_volumes [("group_member_count", "-1")] obj volumes =
          .error (.valueError msg)) :=
  c10_negative_count [("group_member_count", "-1")] "-1" (-1)
    (by decide) (by decide) (by decide)

/-! ## C2: positional volume replacement -/

lemma replace_loop_spec (obj : String) (members : List Member) :
    ∀ (vs out : List VolumeDescriptor), replace_volumes_loop obj members vs = .ok out →
      out.length = vs.length ∧
      ∀ (i : Nat) (v : VolumeDescriptor), vs[i]? = some v →
        ((v.type ≠ "clone" → out[i]? = some v) ∧
         (v.type = "clone" → ∃ r, out[i]? = some r ∧ _get_cloned_volume v obj members = .ok r)) := by
  intro vs
  induction vs with
  | nil =>
    intro out h
    simp only [replace_volumes_loop] at h
    injection h with h1
    subst h1
    exact ⟨rfl, fun i v hv => by simp at hv⟩
  | cons x rest ih =>
    intro out h
    cases hstep : (if x.type == "clone" then _get_cloned_volume x obj members else .ok x) with
    | error e =>
      simp only [replace_volumes_loop, hstep] at h
      exact Except.noConfusion h
    | ok v2 =>
      cases hrec : replace_volumes_loop obj members rest with
      | error e =>
        simp only [replace_volumes_loop, hstep, hrec] at h
        exact Except.noConfusion h
      | ok rest2 =>
        simp only [replace_volumes_loop, hstep, hrec] at h
        injection h with h1
        subst h1
        obtain ⟨hlen, hspec⟩ := ih rest2 hrec
        refine ⟨by simp [hlen], ?_⟩
        intro i v hv
        cases i with
        | zero =>
          simp only [List.getElem?_cons_zero, Option.some.injEq] at hv
          cases hv
          constructor
          · intro hne
            have hbeq : (x.type == "clone") = false := beq_eq_false_iff_ne.mpr hne
            simp only [hbeq, Bool.false_eq_true, if_false] at hstep
            injection hstep with h2
            simp [h2]
          · intro heq
            have hbeq : (x.type == "clone") = true := beq_iff_eq.mpr heq
            simp only [hbeq, if_true] at hstep
            exact ⟨v2, by simp, hstep⟩
        | succ i =>
          simp only [List.getElem?_cons_succ] at hv ⊢
          exact hspec i v hv

/-- C2: given successfully extracted members, `replace_cloned_volumes` is a
1:1 positional transform: when it returns a list, that list has the length
of the input, non-clone volumes are returned unchanged at their position,
clone volumes are replaced by the result of `_get_cloned_volume` at their
position, and the empty input yields the empty result. -/
theorem c2_replace_positional (info : List (String × String)) (obj : String)
    (volumes : List VolumeDescriptor) (members : List Member)
    (hm : _get_group_members info = .ok members) :
    (∀ out, replace_cloned_volumes info obj volumes = .ok out →
      out.length = volumes.length ∧
      ∀ (i : Nat) (v : VolumeDescriptor), volumes[i]? = some v →
        ((v.type ≠ "clone" → out[i]? = some v) ∧
         (v.type = "clone" → ∃ r, out[i]? = some r ∧ _get_cloned_volume v obj members = .ok r)))
    ∧ replace_cloned_volumes info obj [] = .ok [] := by
  constructor
  · intro out h
    simp only [replace_cloned_volumes, hm] at h
    exact replace_loop_spec obj members volumes out h
  · simp only [replace_cloned_volumes, hm]
    rfl

/-- Witness for C2: a clone volume followed by a non-clone volume, against
the one-member metadata of the spec scenario. -/
theorem c2_witness :
    ([volRes, volPlain] : List VolumeDescriptor).length =
      ([volClone, volPlain] : List VolumeDescriptor).length
    ∧ ([volRes, volPlain] : List VolumeDescriptor)[1]? = some volPlain
    ∧ (∃ r, ([volRes, volPlain] : List VolumeDescriptor)[0]? = some r
          ∧ _get_cloned_volume volClone "mynb" [memberOne] = .ok r)
    ∧ replace_cloned_volumes infoOne "mynb" [] = .ok [] := by
  have h := c2_replace_positional infoOne "mynb" [volClone, volPlain] [memberOne] (by decide)
  have hrun : replace_cloned_volumes infoOne "mynb" [volClone, volPlain] =
      .ok [volRes, volPlain] := by decide
  obtain ⟨hlen, hspec⟩ := h.1 _ hrun
  refine ⟨hlen, ?_, ?_, h.2⟩
  · exact (hspec 1 volPlain (by decide)).1 (by decide)
  · exact (hspec 0 volClone (by decide)).2 (by decide)

/-! ## C5: hydration size computation -/

lemma rnd53_small {n : Nat} (h : n < 2 ^ 53) : rnd53 n = n := by
  unfold rnd53
  rw [if_pos h]

lemma pySizeInt_ofNat (n : Nat) : pySizeInt (n : Int) = (pySize n : Int) := by
  unfold pySizeInt
  rw [if_pos (Int.ofNat_nonneg n)]
  simp

/-- C5 counterexample: at content_length 2^53 + 1 the float division of the
source rounds the quotient down and the computed size is one gibibyte short
of the exact ceiling. -/
theorem c5_counterexample :
    pySize 9007199254740993 ≠ (9007199254740993 + 2 ^ 30 - 1) / 2 ^ 30 := by decide

/-- C5 (amended): for every content_length below 2^53 (all sizes the double
division of the source represents exactly) the computed storage size is the
ceiling of content_length divided by 2^30; in particular 0 bytes give 0 Gi,
1 byte gives 1 Gi, 2^30 bytes give 1 Gi and 2^30 + 1 bytes give 2 Gi; and
`hydrate_pvc_from_snapshot` requests exactly this size in its claim
body. -/
theorem c5_size_ceiling :
    (∀ n : Nat, n < 2 ^ 53 → pySize n = (n + 2 ^ 30 - 1) / 2 ^ 30)
    ∧ pySize 0 = 0 ∧ pySize 1 = 1 ∧ pySize 1073741824 = 1 ∧ pySize 1073741825 = 2
    ∧ (∀ (env : HydrateEnv) (name cl u : String) (n : Nat),
        dict_get env.info "content_length" = some cl →
        pyInt cl = some (n : Int) →
        dict_get env.info "rok_url" = some u →
        hydrate_pvc_from_snapshot env name = .ok [("name", env.create_pvc
          { name := name,
            annotations := [("rok/creds-secret-name", "rok-secret-user"), ("rok/origin", u)],
            storage_class_name := "rok",
            access_modes := ["ReadWriteOnce"],
            storage_request := toString (pySize n : Int) ++ "Gi" })]) := by
  refine ⟨?_, by decide, by decide, by decide, by decide, ?_⟩
  · intro n h
    unfold pySize
    rw [rnd53_small h]
    have h2 : n + 2 ^ 30 - 1 = n + (2 ^ 30 - 1) := by omega
    rw [h2]
  · intro env name cl u n hcl hn hu
    simp only [hydrate_pvc_from_snapshot, getKey_of_dict_get hcl, hn,
      getKey_of_dict_get hu, pySizeInt_ofNat]

/-- Witness for C5: a concrete hydration at content_length 2^30 + 1 creates
a 2 Gi claim, and the general bound applies at 5 bytes. -/
theorem c5_witness :
    pySize 5 = (5 + 2 ^ 30 - 1) / 2 ^ 30
    ∧ hydrate_pvc_from_snapshot
        { info := [("content_length", "1073741825"), ("rok_url", "rok://a/b")],
          create_pvc := fun p => p.storage_request }
        "pvc1" =
      .ok [("name", toString (pySize 1073741825 : Int) ++ "Gi")] :=
  ⟨c5_size_ceiling.1 5 (by decide),
   c5_size_ceiling.2.2.2.2.2
     { info := [("content_length", "1073741825"), ("rok_url", "rok://a/b")],
       create_pvc := fun p => p.storage_request }
     "pvc1" "1073741825" "rok://a/b" 1073741825 (by decide) (by decide) (by decide)⟩

/-! ## C4: availability probe -/

/-- C4: the availability check succeeds exactly when the client constructs,
the account-info call succeeds and the pod name appears among the
suggestions; and each of the five failure points raises its distinct typed
condition carrying the transaction id of the request. -/
theorem c4_availability (env : AvailEnv) (tid : String) :
    (check_rok_availability env tid = .ok none ↔
      (env.client = .ok ∧ env.account_info_ok = true ∧
        ∃ l, env.suggestions = .ok l ∧ l.any (fun s => s.value == env.pod_name) = true))
    ∧ (env.client = .importError →
        check_rok_availability env tid =
          .error (.rpcNotFound "Rok Gateway Client module not found" tid))
    ∧ (env.client = .initError →
        check_rok_availability env tid =
          .error (.rpcServiceUnavailable none "Failed to initialize RokClient" tid))
    ∧ (env.client = .ok → env.account_info_ok = false →
        check_rok_availability env tid =
          .error (.rpcServiceUnavailable none "Failed to access Rok" tid))
    ∧ (∀ m, env.client = .ok → env.account_info_ok = true → env.suggestions = .error m →
        check_rok_availability env tid =
          .error (.rpcServiceUnavailable (some m)
            "Rok cannot list notebooks in this namespace" tid))
    ∧ (∀ l, env.client = .ok → env.account_info_ok = true → env.suggestions = .ok l →
        l.any (fun s => s.value == env.pod_name) = false →
        check_rok_availability env tid =
          .error (.rpcNotFound "Could not find this notebook in notebooks listed by Rok" tid)) := by
  obtain ⟨c, a, sg, p⟩ := env
  refine ⟨?_, ?_, ?_, ?_, ?_, ?_⟩
  · cases c <;> cases a <;> rcases sg with m | l <;>
      simp [check_rok_availability]
  · intro hc
    subst hc
    rfl
  · intro hc
    subst hc
    rfl
  · intro hc ha
    subst hc
    subst ha
    rfl
  · intro m hc ha hsg
    subst hc
    subst ha
    have hsg2 : sg = .error m := hsg
    subst hsg2
    rfl
  · intro l hc ha hsg hany
    subst hc
    subst ha
    have hsg2 : sg = .ok l := hsg
    subst hsg2
    have hany2 : (l.any fun s => s.value == p) = false := hany
    simp only [check_rok_availability]
    simp [hany2]

/-- Witness for C4: a concrete environment for each of the failure points
and for success, all at transaction id t1. -/
theorem c4_witness :
    check_rok_availability
        { client := .importError, account_info_ok := true,
          suggestions := .ok [], pod_name := "p" } "t1" =
      .error (.rpcNotFound "Rok Gateway Client module not found" "t1")
    ∧ check_rok_availability
        { client := .initError, account_info_ok := true,
          suggestions := .ok [], pod_name := "p" } "t1" =
      .error (.rpcServiceUnavailable none "Failed to initialize RokClient" "t1")
    ∧ check_rok_availability
        { client := .ok, account_info_ok := false,
          suggestions := .ok [], pod_name := "p" } "t1" =
      .error (.rpcServiceUnavailable none "Failed to access Rok" "t1")
    ∧ check_rok_availability
        { client := .ok, account_info_ok := true,
          suggestions := .error "ApiError: boom", pod_name := "p" } "t1" =
      .error (.rpcServiceUnavailable (some "ApiError: boom")
        "Rok cannot list notebooks in this namespace" "t1")
    ∧ check_rok_availability
        { client := .ok, account_info_ok := true,
          suggestions := .ok [{ value := "q" }], pod_name := "p" } "t1" =
      .error (.rpcNotFound "Could not find this notebook in notebooks listed by Rok" "t1")
    ∧ check_rok_availability
        { client := .ok, account_info_ok := true,
          suggestions := .ok [{ value := "p" }], pod_name := "p" } "t1" = .ok none :=
  ⟨(c4_availability
      { client := .importError, account_info_ok := true,
        suggestions := .ok [], pod_name := "p" } "t1").2.1 rfl,
   (c4_availability
      { client := .initError, account_info_ok := true,
        suggestions := .ok [], pod_name := "p" } "t1").2.2.1 rfl,
   (c4_availability
      { client := .ok, account_info_ok := false,
        suggestions := .ok [], pod_name := "p" } "t1").2.2.2.1 rfl rfl,
   (c4_availability
      { client := .ok, account_info_ok := true,
        suggestions := .error "ApiError: boom", pod_name := "p" } "t1").2.2.2.2.1
     "ApiError: boom" rfl rfl rfl,
   (c4_availability
      { client := .ok, account_info_ok := true,
        suggestions := .ok [{ value := "q" }], pod_name := "p" } "t1").2.2.2.2.2
     [{ value := "q" }] rfl rfl rfl (by decide),
   (c4_availability
      { client := .ok, account_info_ok := true,
        suggestions := .ok [{ value := "p" }], pod_name := "p" } "t1").1.mpr
     ⟨rfl, rfl, [{ value := "p" }], rfl, by decide⟩⟩

/-! ## C8: client handle caching -/

/-- C8: once the cache holds a handle, every further `_get_client` call
returns that same handle and leaves the cache set to it, whatever the
constructor oracle would do; the first successful call is the one that
populates the cache; and across any sequence of module operations the
cached handle is never replaced or invalidated. -/
theorem c8_client_cache {α : Type} (c : α) :
    (∀ construct : Except PyError α, _get_client_st (some c) construct = .ok (c, some c))
    ∧ (∀ construct : Except PyError α, construct = .ok c →
        _get_client_st (none : Option α) construct = .ok (c, some c))
    ∧ (∀ calls : List (Except PyError α),
        run_client_calls (some c) calls = (calls.map (fun _ => .ok c), some c)) := by
  refine ⟨fun construct => rfl, fun construct h => by subst h; rfl, ?_⟩
  intro calls
  induction calls with
  | nil => rfl
  | cons con rest ih => simp [run_client_calls, _get_client_st, ih]

/-- Witness for C8 on a natural-number handle: the populated cache survives
a failing constructor and an arbitrary call sequence. -/
theorem c8_witness :
    _get_client_st (some 7) (.error (.valueError "boom")) = .ok (7, some 7)
    ∧ _get_client_st (none : Option Nat) (.ok 7) = .ok (7, some 7)
    ∧ run_client_calls (some 7) [.ok 7, .error (.valueError "boom"), .ok 9] =
        ([.ok 7, .ok 7, .ok 7], some 7) :=
  ⟨(c8_client_cache 7).1 (.error (.valueError "boom")),
   (c8_client_cache 7).2.1 (.ok 7) rfl,
   (c8_client_cache 7).2.2 [.ok 7, .error (.valueError "boom"), .ok 9]⟩

/-! ## C9: handler results -/

/-- C9 counterexample: in an environment where all three availability
sub-checks pass, `check_rok_availability` returns Python None (its body has
no return statement), not a non-null result mapping. -/
theorem c9_counterexample :
    check_rok_availability availEnvW "t1" = .ok none
    ∧ isNonNullResult (check_rok_availability availEnvW "t1") = false := by
  constructor
  · rfl
  · rfl

/-- C9 (amended): the snapshot handlers return the storage service's
version-registration response, `hydrate_pvc_from_snapshot` returns a
mapping carrying the created resource's name, `replace_cloned_volumes`
returns a list of the length of its input, but `check_rok_availability`
returns None (no result value) whenever it succeeds. -/
theorem c9_handler_results :
    (∀ (α : Type) (env : SnapEnv α) (bucket : String) (obj : Option String),
        ∃ call, snapshot_notebook env bucket obj = env.register call)
    ∧ (∀ (α : Type) (env : SnapEnv α) (pvc_name bucket : String),
        ∃ call, snapshot_pvc env pvc_name bucket = env.register call)
    ∧ (∀ (env : HydrateEnv) (name : String) (r : List (String × String)),
        hydrate_pvc_from_snapshot env name = .ok r →
        ∃ pvc, PVCSpec.name pvc = name ∧ r = [("name", env.create_pvc pvc)])
    ∧ (∀ (info : List (String × String)) (obj : String)
        (volumes out : List VolumeDescriptor),
        replace_cloned_volumes info obj volumes = .ok out → out.length = volumes.length)
    ∧ (∀ (env : AvailEnv) (tid : String) (r : Option Unit),
        check_rok_availability env tid = .ok r → r = none) := by
  refine ⟨?_, ?_, ?_, ?_, ?_⟩
  · intro α env bucket obj
    exact ⟨_, rfl⟩
  · intro α env pvc_name bucket
    exact ⟨_, rfl⟩
  · intro env name r h
    cases h1 : getKey env.info "content_length" with
    | error e =>
      simp only [hydrate_pvc_from_snapshot, h1] at h
      exact Except.noConfusion h
    | ok cl =>
      cases h2 : pyInt cl with
      | none =>
        simp only [hydrate_pvc_from_snapshot, h1, h2] at h
        exact Except.noConfusion h
      | some n =>
        cases h3 : getKey env.info "rok_url" with
        | error e =>
          simp only [hydrate_pvc_from_snapshot, h1, h2, h3] at h
          exact Except.noConfusion h
        | ok u =>
          simp only [hydrate_pvc_from_snapshot, h1, h2, h3, Except.ok.injEq] at h
          exact ⟨_, rfl, h.symm⟩
  · intro info obj volumes out h
    cases hm : _get_group_members info with
    | error e =>
      simp only [replace_cloned_volumes, hm] at h
      exact Except.noConfusion h
    | ok members =>
      simp only [replace_cloned_volumes, hm] at h
      exact (replace_loop_spec obj members volumes out h).1
  · intro env tid r h
    obtain ⟨c, a, sg, p⟩ := env
    cases c with
    | importError => exact Except.noConfusion h
    | initError => exact Except.noConfusion h
    | ok =>
      cases a with
      | false => exact Except.noConfusion h
      | true =>
        rcases sg with m | l
        · exact Except.noConfusion h
        · by_cases hany : (l.any fun s => s.value == p) = true
          · have hr : check_rok_availability ⟨.ok, true, .ok l, p⟩ tid = .ok none := by
              simp [check_rok_availability, hany]
            rw [hr] at h
            injection h with h2
            exact h2.symm
          · have hr : check_rok_availability ⟨.ok, true, .ok l, p⟩ tid =
                .error (.rpcNotFound
                  "Could not find this notebook in notebooks listed by Rok" tid) := by
              simp [check_rok_availability, hany]
            rw [hr] at h
            exact Except.noConfusion h

/-- Witness for C9 at concrete environments: both snapshot handlers, a
hydration, a replacement and a successful availability check. -/
theorem c9_witness :
    (∃ call, snapshot_notebook snapEnvW "notebooks" none = snapEnvW.register call)
    ∧ (∃ call, snapshot_pvc snapEnvW "data1" "notebooks" = snapEnvW.register call)
    ∧ (∃ pvc, PVCSpec.name pvc = "pvc1"
        ∧ ([("name", "pvc1")] : List (String × String)) = [("name", hydEnvW.create_pvc pvc)])
    ∧ ([volRes, volPlain] : List VolumeDescriptor).length =
        ([volClone, volPlain] : List VolumeDescriptor).length
    ∧ (none : Option Unit) = none :=
  ⟨c9_handler_results.1 RegisterCall snapEnvW "notebooks" none,
   c9_handler_results.2.1 RegisterCall snapEnvW "data1" "notebooks",
   c9_handler_results.2.2.1 hydEnvW "pvc1" [("name", "pvc1")] (by decide),
   c9_handler_results.2.2.2.1 infoOne "mynb" [volClone, volPlain] [volRes, volPlain] (by decide),
   c9_handler_results.2.2.2.2 availEnvW "t1" none rfl⟩
